import Mathlib

/-!
Verification development for the bw-nifi record-transformation plugins.

The repository holds three flow-based transformation plugins:
  * `extensions/check_duplicates.py` (`TrinoCheckDuplicates.transform`),
  * `extensions/check_duplicates_service.py` (`CheckDuplicates.transform`),
  * `nifi-python-extensions/geojson_transform.py` (`GeoJSONTransform.transform`).

The two duplicate-classifier variants share one algorithm: parse the flowfile
JSON (a single object is normalized to a one-element list), fetch reference
rows from a relational source, partition the incoming records into
duplicates / non-duplicates by a nested-loop comparison driven by a
field mapping, and route exactly one of the two partitions.

Embedding choices:
  * A scalar JSON / database value is `Val` (null, string, integer, boolean);
    numeric values are modelled by integers.  `pyStr` is Python's `str()` on
    those scalars (`str(None) = "None"`, `str(True) = "True"`).
  * A record (Python dict) is an association list `Record`; `Record.get`
    models `dict.get`, returning the null sentinel for a missing key exactly
    as `dict.get` returns `None`.
  * The field mapping (a JSON object) is a list of (flow column, db column)
    pairs in insertion order, matching `dict.items()`.
  * The database access and the host runtime are external collaborators; the
    classifiers are embedded as functions of the already-fetched reference
    rows, and the fallible steps (JSON parses, row fetch) are embedded with
    `Except` in `transformRun` to state error propagation.
-/

/-- A scalar value as it appears in an incoming JSON record or a database
row: null / absent, a string, an integer, or a boolean. -/
inductive Val where
  | vnull : Val
  | vstr : String → Val
  | vint : Int → Val
  | vbool : Bool → Val
  deriving DecidableEq

/-- Python's `str()` applied to a scalar `Val`:
`str(None) = "None"`, `str("s") = "s"`, `str(5) = "5"`, `str(True) = "True"`. -/
def pyStr : Val → String
  | Val.vnull => "None"
  | Val.vstr s => s
  | Val.vint n => toString n
  | Val.vbool b => if b then "True" else "False"

/-- A record: a Python dict from field name to scalar value, as an
association list (keys unique in practice; lookup takes the first hit). -/
abbrev Record := List (String × Val)

/-- `Record.get r k` models Python's `r.get(k)`: the value stored at `k`,
or the null sentinel (`None`) when the key is absent. -/
def Record.get (r : Record) (k : String) : Val :=
  match r.find? (fun p => p.1 == k) with
  | some p => p.2
  | none => Val.vnull

/-- The parsed flowfile content: `json.loads` yields either a single JSON
object (a dict) or an array of objects. -/
inductive FlowJson where
  | obj : Record → FlowJson
  | arr : List Record → FlowJson
  deriving DecidableEq

/-- `if isinstance(flow_data, dict): flow_data = [flow_data]` — a single
object is wrapped into a one-element list; an array is used as is. -/
def FlowJson.normalize : FlowJson → List Record
  | FlowJson.obj r => [r]
  | FlowJson.arr rs => rs

/-- The value returned by a classifier `transform` call: either a
`FlowFileTransformResult` carrying a relationship name and the serialized
list of records, or the bare `return None`. -/
inductive TransformResult where
  | result : String → List Record → TransformResult
  | noResult : TransformResult
  deriving DecidableEq

namespace TrinoCheckDuplicates

/-- The comparison of one incoming record against one reference row
(`extensions/check_duplicates.py`, lines 140-143):
`all(str(item.get(flow_col)) == str(db_row.get(db_col))
     for flow_col, db_col in column_mapping.items())`. -/
def matchesRow (column_mapping : List (String × String)) (item db_row : Record) : Bool :=
  column_mapping.all (fun p => pyStr (item.get p.1) == pyStr (db_row.get p.2))

/-- The inner loop over `db_rows` (lines 139-146): scan the reference rows
in order and stop at the first one satisfying all mapping conditions. -/
def findMatch (column_mapping : List (String × String)) (item : Record) :
    List Record → Bool
  | [] => false
  | db_row :: rest =>
    if matchesRow column_mapping item db_row then true
    else findMatch column_mapping item rest

/-- The outer loop over `flow_data` (lines 136-149), carried accumulators
`(non_duplicates, duplicates)`: a matched item is appended to `duplicates`
exactly once (at the `break`), an unmatched one to `non_duplicates`. -/
def classifyLoop (column_mapping : List (String × String)) (db_rows : List Record) :
    List Record → List Record × List Record → List Record × List Record
  | [], acc => acc
  | item :: rest, acc =>
    if findMatch column_mapping item db_rows then
      classifyLoop column_mapping db_rows rest (acc.1, acc.2 ++ [item])
    else
      classifyLoop column_mapping db_rows rest (acc.1 ++ [item], acc.2)

/-- The classifier proper (lines 133-149): both accumulators start empty. -/
def classify (column_mapping : List (String × String)) (db_rows : List Record)
    (flow_data : List Record) : List Record × List Record :=
  classifyLoop column_mapping db_rows flow_data ([], [])

/-- The routing tail of `transform` (lines 151-163): `if non_duplicates:`
emit them on "success"; `elif duplicates:` emit them on "duplicate";
otherwise `return None`. -/
def route (non_duplicates duplicates : List Record) : TransformResult :=
  if non_duplicates ≠ [] then TransformResult.result "success" non_duplicates
  else if duplicates ≠ [] then TransformResult.result "duplicate" duplicates
  else TransformResult.noResult

/-- `TrinoCheckDuplicates.transform` after the reference rows have been
fetched (the SQL engine is an external collaborator): normalize the parsed
flowfile JSON, classify, route. -/
def transform (column_mapping : List (String × String)) (db_rows : List Record)
    (flow_data : FlowJson) : TransformResult :=
  let p := classify column_mapping db_rows flow_data.normalize
  route p.1 p.2

/-- The whole invocation with its fallible steps explicit: parsing the
flowfile content, parsing the column-mapping JSON, and executing the query
each may fail (`json.loads`, `create_engine`/`read_sql_query`); no step is
wrapped in a `try`/`except`, so the monadic bind propagates the first error. -/
def transformRun (parsedContents : Except String FlowJson)
    (parsedMapping : Except String (List (String × String)))
    (fetchedRows : Except String (List Record)) : Except String TransformResult := do
  let flow_data ← parsedContents
  let column_mapping ← parsedMapping
  let db_rows ← fetchedRows
  pure (transform column_mapping db_rows flow_data)

end TrinoCheckDuplicates

namespace CheckDuplicates

/-- The comparison of one incoming record against one reference row
(`extensions/check_duplicates_service.py`, lines 117-120): textually the
same generator expression as in the Trino variant. -/
def matchesRow (column_mapping : List (String × String)) (item db_row : Record) : Bool :=
  column_mapping.all (fun p => pyStr (item.get p.1) == pyStr (db_row.get p.2))

/-- The inner loop over `db_rows` (lines 116-123) of the pooled-connection
variant. -/
def findMatch (column_mapping : List (String × String)) (item : Record) :
    List Record → Bool
  | [] => false
  | db_row :: rest =>
    if matchesRow column_mapping item db_row then true
    else findMatch column_mapping item rest

/-- The outer loop over `flow_data` (lines 113-126) of the pooled-connection
variant. -/
def classifyLoop (column_mapping : List (String × String)) (db_rows : List Record) :
    List Record → List Record × List Record → List Record × List Record
  | [], acc => acc
  | item :: rest, acc =>
    if findMatch column_mapping item db_rows then
      classifyLoop column_mapping db_rows rest (acc.1, acc.2 ++ [item])
    else
      classifyLoop column_mapping db_rows rest (acc.1 ++ [item], acc.2)

/-- The classifier proper (lines 110-126). -/
def classify (column_mapping : List (String × String)) (db_rows : List Record)
    (flow_data : List Record) : List Record × List Record :=
  classifyLoop column_mapping db_rows flow_data ([], [])

/-- The routing tail of `transform` (lines 128-140). -/
def route (non_duplicates duplicates : List Record) : TransformResult :=
  if non_duplicates ≠ [] then TransformResult.result "success" non_duplicates
  else if duplicates ≠ [] then TransformResult.result "duplicate" duplicates
  else TransformResult.noResult

/-- `CheckDuplicates.transform` after the reference rows have been obtained
through the pooled connection (lines 80-108 extract columns and rows through
the JDBC-style result set; that loader is the external collaborator). -/
def transform (column_mapping : List (String × String)) (db_rows : List Record)
    (flow_data : FlowJson) : TransformResult :=
  let p := classify column_mapping db_rows flow_data.normalize
  route p.1 p.2

/-- The whole invocation of the pooled-connection variant with its fallible
steps explicit.  The `try`/`finally` nesting (lines 82-106) releases the
statement, result set and connection but catches nothing: an error in any
step still propagates, which the bind models. -/
def transformRun (parsedContents : Except String FlowJson)
    (parsedMapping : Except String (List (String × String)))
    (fetchedRows : Except String (List Record)) : Except String TransformResult := do
  let flow_data ← parsedContents
  let column_mapping ← parsedMapping
  let db_rows ← fetchedRows
  pure (transform column_mapping db_rows flow_data)

end CheckDuplicates

namespace GeoJSONTransform

/-- The value a geometry-transform invocation returns: always a
`FlowFileTransformResult` with a relationship name and a string payload. -/
structure GeoResult where
  relationship : String
  contents : String
  deriving DecidableEq

/-- The diagnostic text built in the `except` branch
(`nifi-python-extensions/geojson_transform.py`, line 107):
an f-string holding the exception message and the formatted traceback. -/
def error_details (msg trace : String) : String :=
  "Error transforming GeoJSON to WKT: " ++ msg ++ "\n\nTraceback:\n" ++ trace

/-- `GeoJSONTransform.transform` (lines 42-112): the whole body is wrapped
in one `try`/`except Exception`.  The geometry work (pyproj / shapely, an
external collaborator) is abstracted as its outcome: either the serialized
result contents, or a raised exception carrying a message and a traceback.
On success the result goes to "success"; on any exception the invocation
still returns a result, routed to "failure" with the diagnostic text. -/
def transform (body : Except (String × String) String) : GeoResult :=
  match body with
  | Except.ok result_contents => GeoResult.mk "success" result_contents
  | Except.error e => GeoResult.mk "failure" (error_details e.1 e.2)

end GeoJSONTransform

/-! Helper lemmas shared by the claim theorems. -/

namespace TrinoCheckDuplicates

theorem findMatch_eq_any (m : List (String × String)) (item : Record) :
    ∀ db_rows : List Record, findMatch m item db_rows = db_rows.any (matchesRow m item) := by
  intro db_rows
  induction db_rows with
  | nil => rfl
  | cons d rest ih =>
    by_cases h : matchesRow m item d
    · simp [findMatch, h]
    · simp [findMatch, h, ih]

theorem classifyLoop_eq (m : List (String × String)) (db_rows fd : List Record) :
    ∀ nons dups : List Record,
      classifyLoop m db_rows fd (nons, dups) =
        (nons ++ fd.filter (fun r => !(findMatch m r db_rows)),
         dups ++ fd.filter (fun r => findMatch m r db_rows)) := by
  induction fd with
  | nil => intro nons dups; simp [classifyLoop]
  | cons item rest ih =>
    intro nons dups
    by_cases h : findMatch m item db_rows
    · simp [classifyLoop, h, ih, List.filter_cons]
    · simp [classifyLoop, h, ih, List.filter_cons]

theorem classify_eq (m : List (String × String)) (db_rows fd : List Record) :
    classify m db_rows fd =
      (fd.filter (fun r => !(findMatch m r db_rows)),
       fd.filter (fun r => findMatch m r db_rows)) := by
  simp [classify, classifyLoop_eq]

theorem classify_eq_filter_any (m : List (String × String)) (db_rows fd : List Record) :
    classify m db_rows fd =
      (fd.filter (fun r => !(db_rows.any (matchesRow m r))),
       fd.filter (fun r => db_rows.any (matchesRow m r))) := by
  rw [classify_eq]
  congr 1 <;> exact List.filter_congr (fun r _ => by rw [findMatch_eq_any])

theorem classify_nil_rows (m : List (String × String)) (fd : List Record) :
    classify m [] fd = (fd, []) := by
  rw [classify_eq]
  simp [findMatch]

end TrinoCheckDuplicates

theorem variants_matchesRow_eq (m : List (String × String)) (item db_row : Record) :
    CheckDuplicates.matchesRow m item db_row = TrinoCheckDuplicates.matchesRow m item db_row := rfl

theorem variants_findMatch_eq (m : List (String × String)) (item : Record) :
    ∀ db_rows : List Record,
      CheckDuplicates.findMatch m item db_rows = TrinoCheckDuplicates.findMatch m item db_rows := by
  intro db_rows
  induction db_rows with
  | nil => rfl
  | cons d rest ih =>
    simp [CheckDuplicates.findMatch, TrinoCheckDuplicates.findMatch,
      variants_matchesRow_eq, ih]

theorem variants_classifyLoop_eq (m : List (String × String)) (db_rows fd : List Record) :
    ∀ acc : List Record × List Record,
      CheckDuplicates.classifyLoop m db_rows fd acc =
        TrinoCheckDuplicates.classifyLoop m db_rows fd acc := by
  induction fd with
  | nil => intro acc; rfl
  | cons item rest ih =>
    intro acc
    simp [CheckDuplicates.classifyLoop, TrinoCheckDuplicates.classifyLoop,
      variants_findMatch_eq, ih]

theorem variants_classify_eq (m : List (String × String)) (db_rows fd : List Record) :
    CheckDuplicates.classify m db_rows fd = TrinoCheckDuplicates.classify m db_rows fd := by
  simp [CheckDuplicates.classify, TrinoCheckDuplicates.classify, variants_classifyLoop_eq]

theorem variants_transform_eq (m : List (String × String)) (db_rows : List Record)
    (fj : FlowJson) :
    CheckDuplicates.transform m db_rows fj = TrinoCheckDuplicates.transform m db_rows fj := by
  simp [CheckDuplicates.transform, TrinoCheckDuplicates.transform, variants_classify_eq]
  rfl

theorem variants_transformRun_eq (c : Except String FlowJson)
    (mp : Except String (List (String × String))) (f : Except String (List Record)) :
    CheckDuplicates.transformRun c mp f = TrinoCheckDuplicates.transformRun c mp f := by
  cases c with
  | error e => rfl
  | ok fj =>
    cases mp with
    | error e => rfl
    | ok m =>
      cases f with
      | error e => rfl
      | ok rows =>
        simp [CheckDuplicates.transformRun, TrinoCheckDuplicates.transformRun,
          variants_transform_eq]

/-! The claims. -/

/-- Claim C1: the routing policy of the classifier's transform.  Writing
`unmatched` for the incoming records no reference row matches and `matched`
for the rest (both in incoming order): if `unmatched` is non-empty the
result goes to "success" carrying exactly `unmatched` (`matched` is
discarded even when non-empty); if `unmatched` is empty and `matched`
non-empty the result goes to "duplicate" carrying exactly `matched`; if
both are empty no result is produced. -/
theorem claim_C1 (m : List (String × String)) (db_rows : List Record) (fj : FlowJson) :
    TrinoCheckDuplicates.transform m db_rows fj =
      if fj.normalize.filter
          (fun r => !(db_rows.any (TrinoCheckDuplicates.matchesRow m r))) ≠ [] then
        TransformResult.result "success"
          (fj.normalize.filter
            (fun r => !(db_rows.any (TrinoCheckDuplicates.matchesRow m r))))
      else if fj.normalize.filter
          (fun r => db_rows.any (TrinoCheckDuplicates.matchesRow m r)) ≠ [] then
        TransformResult.result "duplicate"
          (fj.normalize.filter
            (fun r => db_rows.any (TrinoCheckDuplicates.matchesRow m r)))
      else TransformResult.noResult := by
  simp [TrinoCheckDuplicates.transform, TrinoCheckDuplicates.classify_eq_filter_any,
    TrinoCheckDuplicates.route]

/-- Claim C1 at a concrete mixed batch: one duplicate and one fresh record;
the result is "success" with only the fresh record, the duplicate dropped. -/
theorem claim_C1_witness :
    TrinoCheckDuplicates.transform [("id", "id")] [[("id", Val.vint 1)]]
        (FlowJson.arr [[("id", Val.vint 1)], [("id", Val.vint 2)]]) =
      TransformResult.result "success" [[("id", Val.vint 2)]] := by
  rw [claim_C1]
  decide

/-- Claim C2: the matched partition consists of exactly those incoming
records (kept in incoming order, each occurrence contributing at most one
entry) for which some reference row agrees on every mapping pair after
Python stringification; membership is the stated existential; integer `5`
and string `"5"` stringify equally; and a record missing a field compares
through the same null sentinel as the empty record, so two records both
missing the compared field agree on it. -/
theorem claim_C2 (m : List (String × String)) (db_rows fd : List Record) :
    (TrinoCheckDuplicates.classify m db_rows fd).2 =
        fd.filter (fun r => db_rows.any (fun d =>
          m.all (fun p => pyStr (Record.get r p.1) == pyStr (Record.get d p.2)))) ∧
    (∀ r : Record, r ∈ (TrinoCheckDuplicates.classify m db_rows fd).2 ↔
        r ∈ fd ∧ ∃ d ∈ db_rows, ∀ p ∈ m,
          pyStr (Record.get r p.1) = pyStr (Record.get d p.2)) ∧
    pyStr (Val.vint 5) = pyStr (Val.vstr "5") ∧
    pyStr (Record.get [("other", Val.vint 1)] "id") = pyStr (Record.get [] "id") := by
  refine ⟨?_, ?_, by decide, by decide⟩
  · rw [TrinoCheckDuplicates.classify_eq_filter_any]
    rfl
  · intro r
    rw [TrinoCheckDuplicates.classify_eq_filter_any]
    simp [List.mem_filter, TrinoCheckDuplicates.matchesRow, List.any_eq_true,
      List.all_eq_true]

/-- Claim C2 at a concrete input: integer `5` in the incoming record is
matched by string `"5"` in the reference row. -/
theorem claim_C2_witness :
    (TrinoCheckDuplicates.classify [("id", "id")] [[("id", Val.vstr "5")]]
        [[("id", Val.vint 5)]]).2 = [[("id", Val.vint 5)]] := by
  rw [(claim_C2 [("id", "id")] [[("id", Val.vstr "5")]] [[("id", Val.vint 5)]]).1]
  decide

/-- Claim C3: for a non-empty mapping, the two partitions are complementary
filters of the incoming sequence, hence sublists of it (incoming order
preserved), and every incoming record lands in exactly one of the two. -/
theorem claim_C3 (m : List (String × String)) (db_rows fd : List Record) (h : m ≠ []) :
    (TrinoCheckDuplicates.classify m db_rows fd).1 =
        fd.filter (fun r => !(TrinoCheckDuplicates.findMatch m r db_rows)) ∧
    (TrinoCheckDuplicates.classify m db_rows fd).2 =
        fd.filter (fun r => TrinoCheckDuplicates.findMatch m r db_rows) ∧
    List.Sublist (TrinoCheckDuplicates.classify m db_rows fd).1 fd ∧
    List.Sublist (TrinoCheckDuplicates.classify m db_rows fd).2 fd ∧
    (∀ r : Record, r ∈ fd →
      ((r ∈ (TrinoCheckDuplicates.classify m db_rows fd).1 ∧
        r ∉ (TrinoCheckDuplicates.classify m db_rows fd).2) ∨
       (r ∈ (TrinoCheckDuplicates.classify m db_rows fd).2 ∧
        r ∉ (TrinoCheckDuplicates.classify m db_rows fd).1))) := by
  have h1 := TrinoCheckDuplicates.classify_eq m db_rows fd
  refine ⟨by rw [h1], by rw [h1], ?_, ?_, ?_⟩
  · rw [h1]; exact List.filter_sublist fd
  · rw [h1]; exact List.filter_sublist fd
  · intro r hr
    rw [h1]
    by_cases hm : TrinoCheckDuplicates.findMatch m r db_rows
    · right
      constructor
      · simp [List.mem_filter, hr, hm]
      · simp [List.mem_filter, hm]
    · left
      constructor
      · simp [List.mem_filter, hr, hm]
      · simp [List.mem_filter, hm]

/-- Claim C3 at a concrete input, the mapping non-emptiness hypothesis
discharged at `[("id", "id")]`. -/
theorem claim_C3_witness :
    (TrinoCheckDuplicates.classify [("id", "id")] [] [[]]).1 =
      ([[]] : List Record).filter
        (fun r => !(TrinoCheckDuplicates.findMatch [("id", "id")] r [])) :=
  (claim_C3 [("id", "id")] [] [[]] (by decide)).1

/-- Claim C4 counterexample: with an empty mapping but an EMPTY reference
sequence, the incoming record is classified as non-duplicate, not matched —
the inner loop over zero reference rows never runs, so the vacuous `all()`
is never reached.  The claim as stated (quantifying over every reference
sequence) is therefore false. -/
theorem claim_C4_counterexample :
    (TrinoCheckDuplicates.classify [] [] [[("id", Val.vint 1)]]).2 = [] ∧
    (TrinoCheckDuplicates.classify [] [] [[("id", Val.vint 1)]]).1 =
      [[("id", Val.vint 1)]] := by
  decide

/-- Claim C4 as amended: with an empty mapping and a NON-EMPTY reference
sequence, every incoming record is classified as matched (the `all()` over
zero conditions is vacuously true at the first reference row). -/
theorem claim_C4_amended (db_rows fd : List Record) (h : db_rows ≠ []) :
    (TrinoCheckDuplicates.classify [] db_rows fd).2 = fd ∧
    (TrinoCheckDuplicates.classify [] db_rows fd).1 = [] := by
  cases db_rows with
  | nil => exact absurd rfl h
  | cons d rest =>
    rw [TrinoCheckDuplicates.classify_eq]
    constructor
    · simp [TrinoCheckDuplicates.findMatch, TrinoCheckDuplicates.matchesRow]
    · simp [TrinoCheckDuplicates.findMatch, TrinoCheckDuplicates.matchesRow]

/-- Claim C4 (amended) at a concrete input: empty mapping, one reference
row, one incoming record, classified as matched. -/
theorem claim_C4_witness :
    (TrinoCheckDuplicates.classify [] [[]] [[("a", Val.vnull)]]).2 =
      [[("a", Val.vnull)]] :=
  (claim_C4_amended [[]] [[("a", Val.vnull)]] (by decide)).1

/-- Claim C5 counterexample: with an empty mapping and a non-empty reference
sequence, an incoming record is classified as a duplicate, not as a
non-duplicate — `all()` over the zero mapping conditions is vacuously true,
so the first reference row matches.  The claim as stated (quantifying over
every reference sequence) is therefore false. -/
theorem claim_C5_counterexample :
    (TrinoCheckDuplicates.classify [] [[("x", Val.vint 9)]] [[("id", Val.vint 1)]]).1 = [] ∧
    (TrinoCheckDuplicates.classify [] [[("x", Val.vint 9)]] [[("id", Val.vint 1)]]).2 =
      [[("id", Val.vint 1)]] := by
  decide

/-- Claim C5 as amended: with an empty mapping and an EMPTY reference
sequence, every incoming record is classified as non-duplicate. -/
theorem claim_C5_amended (fd : List Record) :
    (TrinoCheckDuplicates.classify [] [] fd).1 = fd ∧
    (TrinoCheckDuplicates.classify [] [] fd).2 = [] := by
  simp [TrinoCheckDuplicates.classify_nil_rows]

/-- Claim C6: the Trino-engine variant and the pooled-connection variant
compute identical matched/unmatched partitions and identical
channel/payload routing, on the classifier, on the full transform, and on
the invocation with its fallible steps; they differ only in how the
reference rows are obtained, which both embeddings take as input. -/
theorem claim_C6 :
    (∀ (m : List (String × String)) (db_rows fd : List Record),
      CheckDuplicates.classify m db_rows fd = TrinoCheckDuplicates.classify m db_rows fd) ∧
    (∀ (m : List (String × String)) (db_rows : List Record) (fj : FlowJson),
      CheckDuplicates.transform m db_rows fj = TrinoCheckDuplicates.transform m db_rows fj) ∧
    (∀ (c : Except String FlowJson) (mp : Except String (List (String × String)))
        (f : Except String (List Record)),
      CheckDuplicates.transformRun c mp f = TrinoCheckDuplicates.transformRun c mp f) :=
  ⟨variants_classify_eq, variants_transform_eq, variants_transformRun_eq⟩

/-- Claim C7: in both classifier variants, a failure of the flowfile-JSON
parse, of the field-mapping parse, or of the reference-row fetch makes the
whole invocation fail with that error propagated uncaught — the outcome is
the error itself, never a routed result (no failure channel exists in these
plugins). -/
theorem claim_C7 :
    (∀ (e : String) (mp : Except String (List (String × String)))
        (f : Except String (List Record)),
      TrinoCheckDuplicates.transformRun (Except.error e) mp f = Except.error e) ∧
    (∀ (e : String) (c : FlowJson) (f : Except String (List Record)),
      TrinoCheckDuplicates.transformRun (Except.ok c) (Except.error e) f = Except.error e) ∧
    (∀ (e : String) (c : FlowJson) (mp : List (String × String)),
      TrinoCheckDuplicates.transformRun (Except.ok c) (Except.ok mp) (Except.error e) =
        Except.error e) ∧
    (∀ (e : String) (mp : Except String (List (String × String)))
        (f : Except String (List Record)),
      CheckDuplicates.transformRun (Except.error e) mp f = Except.error e) ∧
    (∀ (e : String) (c : FlowJson) (f : Except String (List Record)),
      CheckDuplicates.transformRun (Except.ok c) (Except.error e) f = Except.error e) ∧
    (∀ (e : String) (c : FlowJson) (mp : List (String × String)),
      CheckDuplicates.transformRun (Except.ok c) (Except.ok mp) (Except.error e) =
        Except.error e) := by
  refine ⟨?_, ?_, ?_, ?_, ?_, ?_⟩ <;> intro e c f <;> rfl

/-- Claim C8: when the geometry-transform body raises, the exception is
caught and the invocation still returns a result, routed to "failure" with
the diagnostic text that embeds the exception message and the formatted
traceback; a non-raising body is routed to "success" with its contents. -/
theorem claim_C8 (msg trace : String) :
    GeoJSONTransform.transform (Except.error (msg, trace)) =
      GeoJSONTransform.GeoResult.mk "failure"
        ("Error transforming GeoJSON to WKT: " ++ msg ++ "\n\nTraceback:\n" ++ trace) ∧
    (∀ c : String, GeoJSONTransform.transform (Except.ok c) =
      GeoJSONTransform.GeoResult.mk "success" c) :=
  ⟨rfl, fun _ => rfl⟩

/-- Claim C9: a flowfile parsing to a single JSON object is normalized to
the one-element list before classification, so both classifier variants
treat it exactly as the singleton array input. -/
theorem claim_C9 (m : List (String × String)) (db_rows : List Record) (r : Record) :
    FlowJson.normalize (FlowJson.obj r) = [r] ∧
    TrinoCheckDuplicates.transform m db_rows (FlowJson.obj r) =
      TrinoCheckDuplicates.transform m db_rows (FlowJson.arr [r]) ∧
    CheckDuplicates.transform m db_rows (FlowJson.obj r) =
      CheckDuplicates.transform m db_rows (FlowJson.arr [r]) :=
  ⟨rfl, rfl, rfl⟩

/-- Claim C10: with an empty reference sequence (zero-row query result) and
a non-empty incoming sequence, every incoming record is a non-duplicate and
both variants emit all incoming records on "success", for every mapping,
the empty one included. -/
theorem claim_C10 (m : List (String × String)) (fd : List Record) (h : fd ≠ []) :
    (TrinoCheckDuplicates.classify m [] fd).1 = fd ∧
    (TrinoCheckDuplicates.classify m [] fd).2 = [] ∧
    TrinoCheckDuplicates.transform m [] (FlowJson.arr fd) =
      TransformResult.result "success" fd ∧
    CheckDuplicates.transform m [] (FlowJson.arr fd) =
      TransformResult.result "success" fd := by
  have hc := TrinoCheckDuplicates.classify_nil_rows m fd
  refine ⟨by rw [hc], by rw [hc], ?_, ?_⟩
  · simp [TrinoCheckDuplicates.transform, FlowJson.normalize, hc,
      TrinoCheckDuplicates.route, h]
  · rw [variants_transform_eq]
    simp [TrinoCheckDuplicates.transform, FlowJson.normalize, hc,
      TrinoCheckDuplicates.route, h]

/-- Claim C10 at a concrete input: one incoming record, zero reference
rows, routed to "success" carrying the record. -/
theorem claim_C10_witness :
    TrinoCheckDuplicates.transform [] [] (FlowJson.arr [[("id", Val.vint 3)]]) =
      TransformResult.result "success" [[("id", Val.vint 3)]] :=
  (claim_C10 [] [[("id", Val.vint 3)]] (by decide)).2.2.1
